import Mathlib

/-!
Verification of the heuristic website-content extractor of the cold-email
generator repository (`app/scraper/website_scraper.py`).  The extraction
pipeline is embedded shallowly: HTML-parsing queries (BeautifulSoup) and the
HTTP layer are external collaborators, so a parsed page is modelled as the
record of texts those queries return (`PageData`), and the page fetcher is an
oracle `String → Except String (Nat × PageData)` producing a status code and
a parsed page or a fetch error.  All string manipulation mirrors the Python
string operations used by the source (`strip`, `lower`, `split`, `count`,
substring tests), re-implemented below on `List Char`.
-/

namespace ColdEmail

/-- A whitespace character, as Python's `str.strip` / `\s` treat ASCII text. -/
def wsChar (c : Char) : Bool := c.isWhitespace

/-- Python `str.strip()`: remove leading and trailing whitespace. -/
def pyStrip (s : String) : String :=
  ⟨((s.data.dropWhile wsChar).reverse.dropWhile wsChar).reverse⟩

/-- Python `str.lower()` (ASCII case folding, as used on the ASCII texts here). -/
def pyLower (s : String) : String :=
  ⟨s.data.map Char.toLower⟩

/-- Does `sub` occur contiguously in `l`?  (Python's `sub in s`.) -/
def hasSubAux (sub : List Char) : List Char → Bool
  | [] => sub.isEmpty
  | c :: rest => sub.isPrefixOf (c :: rest) || hasSubAux sub rest

/-- Python's substring test `sub in s`. -/
def strHasSub (sub s : String) : Bool := hasSubAux sub.data s.data

/-- `sub in str(lst)` for a list of labelled fragments: some element contains `sub`. -/
def anyHasSub (sub : String) (l : List String) : Bool :=
  l.any (fun s => strHasSub sub s)

/-- Non-overlapping occurrence count, structural recursion on a fuel that
starts at the list length and always dominates it (each step shortens the
list by at least one element, so the zero-fuel case is never reached). -/
def pyCountGo (sub : List Char) : Nat → List Char → Nat
  | _, [] => 0
  | 0, _ => 0
  | fuel + 1, c :: rest =>
    if sub ≠ [] ∧ sub.isPrefixOf (c :: rest) then
      1 + pyCountGo sub fuel ((c :: rest).drop sub.length)
    else
      pyCountGo sub fuel rest

/-- Python `s.count(sub)`: non-overlapping occurrences, scanning left to right. -/
def pyCount (sub s : String) : Nat :=
  if sub.data = [] then s.data.length + 1 else pyCountGo sub.data s.data.length s.data

/-- `re.split` by one punctuation character followed by one-or-more whitespace
(the patterns `[.!?]\s+`, `[,;]\s+`): the matched separator is dropped.
Structural recursion on a fuel that starts at the list length and always
dominates it, so the zero-fuel case is never reached. -/
def pySplitPWGo (puncts : List Char) : Nat → List Char → List Char → List (List Char)
  | _, [], acc => [acc.reverse]
  | 0, _, acc => [acc.reverse]
  | fuel + 1, c :: rest, acc =>
    if puncts.contains c ∧ (rest.head?.map wsChar).getD false then
      acc.reverse :: pySplitPWGo puncts fuel (rest.dropWhile wsChar) []
    else
      pySplitPWGo puncts fuel rest (c :: acc)

/-- Split a string at every punctuation-plus-whitespace separator. -/
def pySplitPW (puncts : List Char) (s : String) : List String :=
  (pySplitPWGo puncts s.data.length s.data []).map (fun l => ⟨l⟩)

/-- Number of decimal digits in a string (`len(re.sub(r'\D', '', s))`). -/
def digitCount (s : String) : Nat := (s.data.filter Char.isDigit).length

/-- Python `s.split(sep)` with non-empty separator, structural on a fuel
that starts at the list length and always dominates it. -/
def pySplitGo (sep : List Char) : Nat → List Char → List Char → List (List Char)
  | _, [], acc => [acc.reverse]
  | 0, l, acc => [acc.reverse ++ l]
  | fuel + 1, c :: rest, acc =>
    if sep ≠ [] ∧ sep.isPrefixOf (c :: rest) then
      acc.reverse :: pySplitGo sep fuel ((c :: rest).drop sep.length) []
    else
      pySplitGo sep fuel rest (c :: acc)

/-- Python `s.split(sep)`: split at every occurrence of the separator. -/
def pySplit (sep s : String) : List String :=
  (pySplitGo sep.data s.data.length s.data []).map (fun l => ⟨l⟩)

/-- Python `s.replace(old, new)` for non-empty `old`, structural on a fuel
that starts at the list length and always dominates it. -/
def pyReplaceGo (old new : List Char) : Nat → List Char → List Char
  | _, [] => []
  | 0, l => l
  | fuel + 1, c :: rest =>
    if old ≠ [] ∧ old.isPrefixOf (c :: rest) then
      new ++ pyReplaceGo old new fuel ((c :: rest).drop old.length)
    else
      c :: pyReplaceGo old new fuel rest

/-- Python `s.replace(old, new)` (all non-overlapping occurrences). -/
def pyReplace (s old new : String) : String :=
  if old.data = [] then s else ⟨pyReplaceGo old.data new.data s.data.length s.data⟩

/-- Python `s.startswith(pre)`. -/
def pyStartsWith (s pre : String) : Bool := pre.data.isPrefixOf s.data

/-- Everything after the first occurrence of `sep`, if any. -/
def afterFirst (sep : List Char) : List Char → Option (List Char)
  | [] => if sep = [] then some [] else none
  | c :: rest =>
    if sep.isPrefixOf (c :: rest) then some ((c :: rest).drop sep.length)
    else afterFirst sep rest

/-- `urlparse(url).netloc` for the scheme-qualified URLs this scraper receives:
the text after the first `://`, up to the next `/`, `?` or `#`.  (The URL
parser is an external collaborator; URLs without a scheme yield an empty
network location, as `urlparse` does.) -/
def netloc (url : String) : String :=
  match afterFirst "://".data url.data with
  | some rest => ⟨rest.takeWhile (fun c => (c != '/') && (c != '?') && (c != '#'))⟩
  | none => ""

/-- Drop a leading `www.` from a domain (source lines 595-596). -/
def stripWww (d : String) : String :=
  if pyStartsWith d "www." then ⟨d.data.drop 4⟩ else d

/-- `domain.split('.')[0]`. -/
def firstLabel (d : String) : String := (pySplit "." d).headD ""

/-! ### Data model (`app/models/schemas.py`, class `CompanyInfo`) -/

/-- The mutable profile aggregate built during one scrape
(`CompanyInfo` in `app/models/schemas.py`; all fields default to empty). -/
structure CompanyInfo where
  name : String
  description : String
  products_services : List String
  about : String
  contact : String
  industry : String
  values : List String
  team : List String
  clients : List String
deriving DecidableEq, Repr

/-- The profile the scraper starts from (`WebsiteScraper.__init__`). -/
def emptyCompanyInfo : CompanyInfo :=
  { name := "", description := "", products_services := [], about := "",
    contact := "", industry := "", values := [], team := [], clients := [] }

/-! ### Parsed pages

A parsed page is the record of what the BeautifulSoup queries of each
extractor return on that page; the extractors' own filtering, thresholds and
accumulation logic is translated from the source. -/

/-- The element following a values-related heading: a `ul`/`ol` (its `li`
texts) or a `p` (its text) — `_extract_values`, lines 396-413. -/
inductive NextElem where
  | elemList (items : List String)
  | elemPara (text : String)
deriving DecidableEq, Repr

/-- Email and raw phone regex matches found in one contact/footer section
(`_extract_contact_info`, lines 302-319). -/
structure ContactSection where
  emails : List String
  phones : List String
deriving DecidableEq, Repr

/-- The query results of one parsed page, in the shape each extractor
consumes them.  `Option` marks a find that may fail; string values carry the
raw (unstripped) text, stripping is applied by the extractor as in source. -/
structure PageData where
  /-- `alt` text of an `img` whose alt matches `logo` (line 135); `None` if absent. -/
  logoAlt : Option String
  /-- text of the `title` element (lines 143, 198). -/
  title : Option String
  /-- text of a brand/logo-text/site-title element inside a header (lines 151-154). -/
  brandText : Option String
  /-- `content` of `meta[name=description]` (lines 169, 217). -/
  metaDesc : Option String
  /-- `content` of `meta[property=og:description]` (lines 175, 223). -/
  ogDesc : Option String
  /-- paragraph texts of a hero/banner container, when one exists (lines 181-185). -/
  heroParas : Option (List String)
  /-- paragraph texts of each content/about-style container, in order (lines 204-211). -/
  aboutContainers : List (List String)
  /-- text of the paragraph following each about-style heading (lines 229-233). -/
  aboutHeadingParas : List String
  /-- heading texts inside service/product-style containers (lines 248-254). -/
  serviceHeadings : List String
  /-- `li` texts of lists following service-related headings (lines 261-269). -/
  serviceListItems : List String
  /-- anchor texts inside nav/menu elements (lines 275-281). -/
  navItems : List String
  /-- regex matches per contact/footer-style section (lines 296-319). -/
  contactSections : List ContactSection
  /-- `href` of each `mailto:` anchor (lines 324-329). -/
  mailtoHrefs : List String
  /-- `href` of each `tel:` anchor (lines 332-337). -/
  telHrefs : List String
  /-- email regex matches over the whole page text (lines 341-346). -/
  pageEmails : List String
  /-- phone regex matches over the whole page text (lines 349-352). -/
  pagePhones : List String
  /-- `href` of the first anchor matching each social host pattern (lines 356-366). -/
  socialLinkedin : Option String
  socialTwitter : Option String
  socialFacebook : Option String
  socialInstagram : Option String
  /-- texts of `h3/h4/h5/strong/b/li` inside the first values/mission-style
  container, when one exists (lines 383-388). -/
  valuesSectionItems : Option (List String)
  /-- element following each values/mission-related heading (lines 396-400). -/
  valueHeadingNexts : List NextElem
deriving DecidableEq, Repr

/-- A page with every query coming back empty. -/
def blankPage : PageData :=
  { logoAlt := none, title := none, brandText := none, metaDesc := none,
    ogDesc := none, heroParas := none, aboutContainers := [],
    aboutHeadingParas := [], serviceHeadings := [], serviceListItems := [],
    navItems := [], contactSections := [], mailtoHrefs := [], telHrefs := [],
    pageEmails := [], pagePhones := [], socialLinkedin := none,
    socialTwitter := none, socialFacebook := none, socialInstagram := none,
    valuesSectionItems := none, valueHeadingNexts := [] }

/-! ### Field extractors (`WebsiteScraper._extract_*`) -/

/-- `_extract_company_name` (lines 124-156): the value of the `name` field
after the call — write-once guard, then logo alt, title, brand fallbacks. -/
def nameResult (pg : PageData) (p : CompanyInfo) : String :=
  if p.name ≠ "" then p.name
  else
    let n1 := match pg.logoAlt with
      | some alt => pyStrip (pyReplace (pyReplace alt "logo" "") "Logo" "")
      | none => ""
    if n1 ≠ "" then n1
    else
      let n2 := match pg.title with
        | some t =>
          if t ≠ "" then pyStrip ((pySplit "-" ((pySplit "|" t).headD "")).headD "")
          else ""
        | none => ""
      if n2 ≠ "" then n2
      else
        let n3 := match pg.brandText with
          | some b => pyStrip b
          | none => ""
        if n3 ≠ "" then n3 else p.name

/-- `_extract_company_name` as a profile transformer. -/
def extract_company_name (pg : PageData) (p : CompanyInfo) : CompanyInfo :=
  { p with name := nameResult pg p }

/-- `_extract_description` (lines 158-186): meta description, Open Graph
description, then first hero paragraph; write-once guard first. -/
def descriptionResult (pg : PageData) (p : CompanyInfo) : String :=
  if p.description ≠ "" then p.description
  else
    let d1 := pg.metaDesc.getD ""
    if d1 ≠ "" then d1
    else
      let d2 := pg.ogDesc.getD ""
      if d2 ≠ "" then d2
      else
        match pg.heroParas with
        | some (t :: _) => pyStrip t
        | _ => p.description

/-- `_extract_description` as a profile transformer. -/
def extract_description (pg : PageData) (p : CompanyInfo) : CompanyInfo :=
  { p with description := descriptionResult pg p }

/-- Lines 197-198: is the current page an about/company page (URL or title)? -/
def isAboutPage (url : String) (title : Option String) : Bool :=
  strHasSub "about" (pyLower url) || strHasSub "company" (pyLower url) ||
  strHasSub "who-we-are" (pyLower url) ||
  (match title with
   | some t => strHasSub "about" (pyLower t) || strHasSub "company" (pyLower t) ||
               strHasSub "who we are" (pyLower t)
   | none => false)

/-- Lines 207-213: walk the about-style containers; join the first three
stripped paragraphs, stop at the first join longer than 50 characters (the
last computed join is kept otherwise). -/
def aboutFromContainers : List (List String) → String → String
  | [], acc => acc
  | c :: rest, acc =>
    if c ≠ [] then
      let j := String.intercalate " " ((c.take 3).map pyStrip)
      if j.length > 50 then j else aboutFromContainers rest j
    else aboutFromContainers rest acc

/-- Lines 229-235: paragraphs following about-style headings; each stripped
text replaces the candidate, stopping at the first longer than 50 characters. -/
def aboutFromHeadings : List String → String → String
  | [], acc => acc
  | t :: rest, _ =>
    let v := pyStrip t
    if v.length > 50 then v else aboutFromHeadings rest v

/-- Lines 200-235: the about-content candidate built by the fallback chain
(containers, then meta description, then Open Graph, then headings). -/
def aboutCandidate (pg : PageData) : String :=
  let c1 := aboutFromContainers pg.aboutContainers ""
  let c2 :=
    if c1 = "" ∨ c1.length < 50 then
      let m := pg.metaDesc.getD ""
      if m ≠ "" then m else c1
    else c1
  let c3 :=
    if c2 = "" ∨ c2.length < 50 then
      let m := pg.ogDesc.getD ""
      if m ≠ "" then m else c2
    else c2
  if c3 = "" ∨ c3.length < 50 then aboutFromHeadings pg.aboutHeadingParas c3
  else c3

/-- `_extract_about_info` (lines 188-238): runs when the page looks like an
about page or the field is still empty; the candidate is accepted only when
non-empty and strictly longer than 20 characters (line 237). -/
def extract_about_info (url : String) (pg : PageData) (p : CompanyInfo) : CompanyInfo :=
  if isAboutPage url pg.title ∨ p.about = "" then
    let c := aboutCandidate pg
    if c ≠ "" ∧ c.length > 20 then { p with about := c } else p
  else p

/-- Appending with the source's guard: non-empty, not already present,
length below `cap` (lines 253-256, 267-271, 281-283, 389-392, 404-408). -/
def guardedAppend (cap : Nat) (acc : List String) (t : String) : List String :=
  let v := pyStrip t
  if v ≠ "" ∧ v ∉ acc ∧ v.length < cap then acc ++ [v] else acc

/-- Line 280: anchor text matches the service-related link regex. -/
def navServiceLink (t : String) : Bool :=
  ["service", "solution", "offering", "capability", "industry"].any
    (fun k => strHasSub k (pyLower t))

/-- `_extract_products_services` (lines 240-283): headings in service
sections, then list items if nothing found, then nav anchors when fewer
than three entries; each appended with dedup and length guards. -/
def productsResult (pg : PageData) (p : CompanyInfo) : List String :=
  let ps1 := pg.serviceHeadings.foldl (guardedAppend 100) p.products_services
  let ps2 := if ps1 = [] then pg.serviceListItems.foldl (guardedAppend 100) ps1 else ps1
  if ps2.length < 3 then
    pg.navItems.foldl
      (fun acc t => if navServiceLink t then guardedAppend 50 acc t else acc) ps2
  else ps2

/-- `_extract_products_services` as a profile transformer. -/
def extract_products_services (pg : PageData) (p : CompanyInfo) : CompanyInfo :=
  { p with products_services := productsResult pg p }

/-- Lines 302-319: first email/phone per dedicated contact section, with the
`"Email"`/`"Phone" not in str(contact_info)` guards and the seven-digit
filter on phone matches. -/
def contactFromSections (secs : List ContactSection) : List String :=
  secs.foldl
    (fun info sec =>
      let phones := sec.phones.filter (fun ph => digitCount ph ≥ 7)
      let info :=
        if sec.emails ≠ [] ∧ ¬ anyHasSub "Email" info then
          info ++ ["Email: " ++ sec.emails.headD ""]
        else info
      if phones ≠ [] ∧ ¬ anyHasSub "Phone" info then
        info ++ ["Phone: " ++ phones.headD ""]
      else info)
    []

/-- Lines 324-329: the email taken from a `mailto:` href. -/
def mailtoEmail (href : String) : String :=
  pyStrip ((pySplit "?" (pyReplace href "mailto:" "")).headD "")

/-- Lines 324-329: append the first qualifying `mailto:` email, then stop. -/
def contactFromMailtos (info : List String) : List String → List String
  | [] => info
  | h :: rest =>
    let e := mailtoEmail h
    if e ≠ "" ∧ strHasSub "@" e ∧ ¬ anyHasSub "Email" info then
      info ++ ["Email: " ++ e]
    else contactFromMailtos info rest

/-- Lines 332-337: append the first qualifying `tel:` phone, then stop. -/
def contactFromTels (info : List String) : List String → List String
  | [] => info
  | h :: rest =>
    let ph := pyStrip (pyReplace h "tel:" "")
    if ph ≠ "" ∧ ¬ anyHasSub "Phone" info ∧ digitCount ph ≥ 7 then
      info ++ ["Phone: " ++ ph]
    else contactFromTels info rest

/-- Lines 354-366: labelled social links, in the fixed platform order, for
anchors found with a non-empty href. -/
def socialLinks (pg : PageData) : List String :=
  (match pg.socialLinkedin with
   | some h => if h ≠ "" then ["LinkedIn: " ++ h] else []
   | none => []) ++
  (match pg.socialTwitter with
   | some h => if h ≠ "" then ["Twitter: " ++ h] else []
   | none => []) ++
  (match pg.socialFacebook with
   | some h => if h ≠ "" then ["Facebook: " ++ h] else []
   | none => []) ++
  (match pg.socialInstagram with
   | some h => if h ≠ "" then ["Instagram: " ++ h] else []
   | none => [])

/-- `_extract_contact_info` (lines 285-373): the value of `contact` after the
call.  Write-once guard; sections, then mailto/tel links, then whole-page
matches; social links are appended only when at most two were found
(line 369); fragments joined with `" | "`. -/
def contactResult (pg : PageData) (p : CompanyInfo) : String :=
  if p.contact ≠ "" then p.contact
  else
    let info := contactFromSections pg.contactSections
    let info :=
      if info = [] then
        let info1 := contactFromMailtos [] pg.mailtoHrefs
        let info2 := contactFromTels info1 pg.telHrefs
        if info2 = [] then
          let pageP := pg.pagePhones.filter (fun ph => digitCount ph ≥ 7)
          (if pg.pageEmails ≠ [] then ["Email: " ++ pg.pageEmails.headD ""] else []) ++
          (if pageP ≠ [] then ["Phone: " ++ pageP.headD ""] else [])
        else info2
      else info
    let socials := socialLinks pg
    let info := if socials ≠ [] ∧ socials.length ≤ 2 then info ++ socials.take 2 else info
    if info ≠ [] then String.intercalate " | " info else p.contact

/-- `_extract_contact_info` as a profile transformer. -/
def extract_contact_info (pg : PageData) (p : CompanyInfo) : CompanyInfo :=
  { p with contact := contactResult pg p }

/-- The value-related keywords of `_extract_values` (lines 418-420). -/
def valueKeywords : List String :=
  ["integrity", "innovation", "excellence", "quality", "customer", "service",
   "respect", "responsibility", "sustainability", "diversity", "inclusion",
   "teamwork", "collaboration", "trust", "ethical", "commitment", "passion"]

/-- Lines 425-432: for each keyword present in the about text, the first
sentence containing it whose stripped form is shorter than 150 characters. -/
def valuesFromAbout (about : String) : List String :=
  let sentences := pySplitPW ['.', '!', '?'] about
  valueKeywords.foldl
    (fun fv kw =>
      if strHasSub kw (pyLower about) then
        match sentences.find?
            (fun s => strHasSub kw (pyLower s) && decide ((pyStrip s).length < 150)) with
        | some s => fv ++ [pyStrip s]
        | none => fv
      else fv)
    []

/-- Lines 443-448: split the description on commas/semicolons; keep phrases
under 100 characters containing a value keyword.  The membership check is on
the raw phrase while the stripped phrase is appended, exactly as in source
(line 447). -/
def valuesFromDescription (vs : List String) (description : String) : List String :=
  (pySplitPW [',', ';'] description).foldl
    (fun acc ph =>
      if valueKeywords.any (fun kw => strHasSub kw (pyLower ph)) ∧ ph.length < 100 then
        if ph ≠ "" ∧ ph ∉ acc then acc ++ [pyStrip ph] else acc
      else acc)
    vs

/-- Lines 450-464: refinement pass over one accumulated value: a value longer
than 100 characters is replaced by its comma/semicolon sub-phrases shorter
than 100 characters (stripped); shorter values are kept as they are. -/
def refineOne (v : String) : List String :=
  if v.length > 100 then
    ((pySplitPW [',', ';'] v).filter
      (fun part => decide (part.length < 100) && !(pyStrip part).isEmpty)).map pyStrip
  else [v]

/-- Lines 450-464: the refined list before the five-entry cut. -/
def refinedOf (vs : List String) : List String := vs.flatMap refineOne

/-- Lines 450-464: refinement with the cap — applied only when the refined
list is non-empty, otherwise the accumulated values are kept unchanged. -/
def refineValues (vs : List String) : List String :=
  if vs = [] then vs
  else
    let refined := refinedOf vs
    if refined ≠ [] then refined.take 5 else vs

/-- `_extract_values` (lines 375-464): section items, heading-next elements,
about-sentence mining, description-phrase mining, then refinement.  Reaching
the description branch without the about branch having run raises a
`NameError` in the source (`value_keywords` is bound inside the about
branch, line 418); the exception is caught by `_scrape_page`, so the call
ends with the values accumulated so far (necessarily none on that path). -/
def valuesResult (pg : PageData) (p : CompanyInfo) : List String :=
  let vs1 := match pg.valuesSectionItems with
    | some items => items.foldl (guardedAppend 50) p.values
    | none => p.values
  let vs2 :=
    if vs1 = [] then
      pg.valueHeadingNexts.foldl
        (fun acc ne =>
          match ne with
          | .elemList items => items.foldl (guardedAppend 50) acc
          | .elemPara t =>
            let v := pyStrip t
            if v ≠ "" ∧ v ∉ acc then acc ++ [v] else acc)
        vs1
    else vs1
  let vs3 :=
    if vs2 = [] ∧ p.about ≠ "" then
      (valuesFromAbout p.about).foldl
        (fun acc v => if v ≠ "" ∧ v ∉ acc then acc ++ [v] else acc) vs2
    else vs2
  if vs3 = [] ∧ p.description ≠ "" ∧ p.about = "" then
    p.values
  else
    let vs4 :=
      if vs3 = [] ∧ p.description ≠ "" then valuesFromDescription vs3 p.description
      else vs3
    refineValues vs4

/-- `_extract_values` as a profile transformer. -/
def extract_values (pg : PageData) (p : CompanyInfo) : CompanyInfo :=
  { p with values := valuesResult pg p }

/-- `_scrape_page` lines 113-119: the six extractors applied in order to one
successfully fetched page. -/
def extractPage (url : String) (pg : PageData) (p : CompanyInfo) : CompanyInfo :=
  extract_values pg
    (extract_contact_info pg
      (extract_products_services pg
        (extract_about_info url pg
          (extract_description pg
            (extract_company_name pg p)))))

/-! ### Industry inference (`WebsiteScraper._infer_industry`, lines 466-535) -/

/-- The fixed ordered industry keyword table (lines 480-512). -/
def industryKeywords : List (String × List String) :=
  [("Technology",
    ["software", "tech", "digital", "app", "application", "cloud", "data", "ai",
     "artificial intelligence", "platform", "saas", "automation", "internet",
     "web", "mobile", "computer", "it", "information technology", "cyber",
     "security", "network", "programming", "developer", "code", "algorithm",
     "analytics"]),
   ("Healthcare",
    ["health", "medical", "healthcare", "patient", "hospital", "clinic",
     "doctor", "wellness", "pharma", "pharmaceutical", "biotech", "medicine",
     "therapy", "diagnostic", "treatment", "care", "nursing"]),
   ("Finance",
    ["finance", "financial", "banking", "investment", "insurance", "loan",
     "credit", "bank", "fintech", "payment", "transaction", "money", "capital",
     "fund", "asset", "wealth", "trading", "stock", "market"]),
   ("Education",
    ["education", "learning", "school", "university", "college", "student",
     "course", "training", "academic", "teaching", "classroom", "e-learning",
     "knowledge", "curriculum", "edtech"]),
   ("Manufacturing",
    ["manufacturing", "factory", "production", "industrial", "machinery",
     "equipment", "assembly", "fabrication", "processing", "engineering",
     "supply chain", "inventory", "quality control"]),
   ("Retail",
    ["retail", "shop", "store", "ecommerce", "product", "consumer", "customer",
     "shopping", "merchandise", "sales", "brand", "marketplace", "commerce",
     "purchase", "buyer", "seller"]),
   ("Real Estate",
    ["real estate", "property", "housing", "construction", "building",
     "apartment", "home", "commercial", "residential", "lease", "rent",
     "mortgage", "development", "architecture"]),
   ("Marketing",
    ["marketing", "advertising", "brand", "campaign", "media", "promotion",
     "content", "digital marketing", "seo", "ppc", "social media", "audience",
     "engagement", "lead generation"]),
   ("Consulting",
    ["consulting", "consultant", "advisory", "strategy", "solution",
     "business consulting", "management", "professional services", "expertise",
     "guidance", "recommendation", "analysis"]),
   ("Legal",
    ["legal", "law", "attorney", "lawyer", "compliance", "regulation",
     "litigation", "contract", "counsel", "firm", "practice", "legal services",
     "justice", "court"]),
   ("Professional Services",
    ["service", "professional", "business", "solution", "provider", "firm",
     "agency", "partner", "client", "expertise", "specialist", "advisor"]),
   ("Entertainment & Media",
    ["media", "entertainment", "content", "film", "video", "music", "game",
     "streaming", "publishing", "broadcast", "production", "creative",
     "studio"]),
   ("Telecommunications",
    ["telecom", "communication", "network", "mobile", "wireless", "broadband",
     "internet", "phone", "cellular", "data", "connectivity"]),
   ("Energy & Utilities",
    ["energy", "power", "utility", "electricity", "gas", "oil", "renewable",
     "solar", "wind", "sustainable", "grid", "resource"]),
   ("Transportation & Logistics",
    ["transport", "logistics", "shipping", "delivery", "freight",
     "supply chain", "warehouse", "distribution", "fleet", "cargo",
     "fulfillment"])]

/-- Lines 471-477: the lower-cased text corpus the inference scores. -/
def corpusOf (p : CompanyInfo) : String :=
  pyLower (String.intercalate " "
    [p.name, p.description, p.about,
     String.intercalate " " p.products_services,
     String.intercalate " " p.values])

/-- Lines 517-527: the score of one keyword set against the corpus —
`min(occurrences, 3)` per keyword found, plus 2 when the keyword also occurs
in the name or the description. -/
def scoreKeywords (p : CompanyInfo) (kws : List String) : Nat :=
  let corpus := corpusOf p
  kws.foldl
    (fun acc kw =>
      let occ := pyCount kw corpus
      if occ > 0 then
        acc + min occ 3 +
          (if strHasSub kw (pyLower p.name) || strHasSub kw (pyLower p.description)
           then 2 else 0)
      else acc)
    0

/-- Lines 515-527: the ordered list of (industry, score) pairs. -/
def industryScores (p : CompanyInfo) : List (String × Nat) :=
  industryKeywords.map (fun e => (e.1, scoreKeywords p e.2))

/-- Python's `max(·, key=·)` over a non-empty list: the running best is
replaced only by a strictly greater score, so the earliest maximum wins. -/
def argmaxFirstAux (best : String × Nat) : List (String × Nat) → String × Nat
  | [] => best
  | y :: ys => argmaxFirstAux (if y.2 > best.2 then y else best) ys

/-- Lines 532-533: `max(industry_scores.items(), key=lambda x: x[1])`. -/
def argmaxFirst : List (String × Nat) → Option (String × Nat)
  | [] => none
  | x :: xs => some (argmaxFirstAux x xs)

/-- `_infer_industry` (lines 466-535): set the industry to the best-scoring
label when its score is positive, otherwise leave the profile unchanged. -/
def infer_industry (p : CompanyInfo) : CompanyInfo :=
  match argmaxFirst (industryScores p) with
  | some best => if best.2 > 0 then { p with industry := best.1 } else p
  | none => p

/-! ### Post-processor (`WebsiteScraper._post_process_data`, lines 537-650) -/

/-- The fixed navigation vocabulary (lines 542-544). -/
def commonNavItems : List String :=
  ["home", "about", "about us", "contact", "contact us", "careers",
   "login", "sign in", "register", "blog", "news", "events",
   "privacy policy", "terms", "sitemap", "search", "locations"]

/-- Lines 549-560: keep a products/services entry unless it equals a nav
item (lower-cased), is shorter than 4 characters, or contains one of
`login`/`sign`/`contact`/`about` in its lower-cased form. -/
def keepService (s : String) : Bool :=
  !(commonNavItems.contains (pyLower s)) &&
  !(decide (s.length < 4)) &&
  !(["login", "sign", "contact", "about"].any (fun t => strHasSub t (pyLower s)))

/-- Lines 546-564: filter the list, but keep the original when filtering
would remove everything. -/
def filterServices (l : List String) : List String :=
  if l = [] then l
  else
    let f := l.filter keepService
    if f = [] then l else f

/-- The three-letter month prefixes of the date regex (line 568). -/
def monthAbbrevs : List (List Char) :=
  ["jan".data, "feb".data, "mar".data, "apr".data, "may".data, "jun".data,
   "jul".data, "aug".data, "sep".data, "oct".data, "nov".data, "dec".data]

/-- Strip one month prefix, if the input starts with one. -/
def dropMonth (l : List Char) : Option (List Char) :=
  match monthAbbrevs.find? (fun m => m.isPrefixOf l) with
  | some m => some (l.drop m.length)
  | none => none

/-- Require at least one whitespace character, then drop the whitespace run. -/
def dropWsOne (l : List Char) : Option (List Char) :=
  match l with
  | c :: t => if wsChar c then some (t.dropWhile wsChar) else none
  | [] => none

/-- Line 568: the anchored date pattern
`^\s*(?:jan|...|dec)[a-z]*\s+\d{1,2},?\s+\d{4}\s*$`, case-insensitive.  The
pattern is deterministic: the digit runs must have length 1-2 and exactly 4. -/
def matchDate (v : String) : Bool :=
  let step : Option (List Char) := do
    let l := (pyLower v).data.dropWhile wsChar
    let l ← dropMonth l
    let l := l.dropWhile (fun c => 'a' ≤ c && c ≤ 'z')
    let l ← dropWsOne l
    let day := l.takeWhile Char.isDigit
    let l := l.dropWhile Char.isDigit
    if day.length = 1 ∨ day.length = 2 then
      let l := match l with
        | ',' :: t => t
        | _ => l
      let l ← dropWsOne l
      let year := l.takeWhile Char.isDigit
      let l := l.dropWhile Char.isDigit
      if year.length = 4 then
        if l.dropWhile wsChar = [] then some [] else none
      else none
    else none
  step.isSome

/-- Lines 567-569: drop values matching the date pattern. -/
def filterDates (vs : List String) : List String :=
  vs.filter (fun v => !(matchDate v))

/-- Lines 571-590: drop `Phone:` fragments with fewer than seven digits;
contact becomes empty when every fragment is dropped. -/
def validatePhone (c : String) : String :=
  if c ≠ "" ∧ strHasSub "Phone:" c then
    let parts := pySplit " | " c
    let fp := parts.filter
      (fun part => if pyStartsWith part "Phone:" then decide (digitCount part ≥ 7) else true)
    if fp ≠ [] then String.intercalate " | " fp else ""
  else c

/-- Lines 592-612: when contact is empty, synthesize a LinkedIn company-page
guess from the domain's first label (www-stripped) plus the base URL. -/
def backfillContact (base : String) (c : String) : String :=
  if c = "" then
    let domain := stripWww (netloc base)
    let parts :=
      (if ¬ strHasSub "linkedin" (pyLower c) then
        ["LinkedIn: https://www.linkedin.com/company/" ++ firstLabel domain]
       else []) ++
      ["Website: " ++ base]
    if parts ≠ [] then
      if c ≠ "" then c ++ " | " ++ String.intercalate " | " parts
      else String.intercalate " | " parts
    else c
  else c

/-- Per-industry default services (lines 619-625). -/
def industryServicesTable : List (String × List String) :=
  [("Technology", ["Software Development", "Cloud Solutions", "Digital Transformation"]),
   ("Healthcare", ["Patient Care", "Medical Services", "Healthcare Solutions"]),
   ("Finance", ["Financial Services", "Investment Management", "Banking Solutions"]),
   ("Professional Services", ["Consulting", "Advisory Services", "Business Solutions"]),
   ("Consulting", ["Strategy Consulting", "Management Consulting", "Business Advisory"])]

/-- Lines 614-631: default products/services for a known industry. -/
def backfillProducts (ind : String) : List String :=
  match industryServicesTable.find? (fun e => e.1 == ind) with
  | some e => e.2
  | none => [ind ++ " Services", "Consulting", "Professional Solutions"]

/-- Per-industry default values (lines 638-644). -/
def industryValuesTable : List (String × List String) :=
  [("Technology", ["Innovation", "Excellence", "Customer-Centric"]),
   ("Healthcare", ["Patient-Focused", "Quality Care", "Compassion"]),
   ("Finance", ["Integrity", "Trust", "Excellence"]),
   ("Professional Services", ["Client Success", "Excellence", "Integrity"]),
   ("Consulting", ["Client Value", "Expertise", "Collaboration"])]

/-- Lines 633-650: default values for a known industry. -/
def backfillValues (ind : String) : List String :=
  match industryValuesTable.find? (fun e => e.1 == ind) with
  | some e => e.2
  | none => ["Excellence", "Integrity", "Client Focus"]

/-- `_post_process_data` (lines 537-650): services filtering, values date
filtering, phone validation, contact backfill, then the industry-derived
backfills of empty products/services and values, in source order. -/
def post_process_data (base : String) (p : CompanyInfo) : CompanyInfo :=
  let ps := filterServices p.products_services
  let vs := filterDates p.values
  let ct := backfillContact base (validatePhone p.contact)
  let ps := if ps = [] ∧ p.industry ≠ "" then backfillProducts p.industry else ps
  let vs := if vs = [] ∧ p.industry ≠ "" then backfillValues p.industry else vs
  { p with products_services := ps, values := vs, contact := ct }

/-! ### Crawl controller (`WebsiteScraper.scrape` / `_scrape_page`) -/

/-- Line 41: the page ceiling. -/
def maxPages : Nat := 5

/-- Line 65: the fixed ordered candidate paths. -/
def importantPages : List String :=
  ["about", "about-us", "company", "services", "products", "solutions", "what-we-do"]

/-- The crawl state: visited URL set, fetch counter, issued fetches in order,
and the profile in progress (`__init__`, lines 26-42). -/
structure CrawlState where
  visited : List String
  pagesVisited : Nat
  fetched : List String
  profile : CompanyInfo

/-- The state a scrape starts from. -/
def initState : CrawlState :=
  { visited := [], pagesVisited := 0, fetched := [], profile := emptyCompanyInfo }

/-- `_scrape_page` (lines 88-122): skip visited URLs and respect the page
ceiling; otherwise mark the URL, issue the fetch (counted even when it
fails, lines 99-105), and run the extractors only on a 200 response.  Fetch
errors are caught and leave the profile untouched. -/
def scrape_page (fetch : String → Except String (Nat × PageData))
    (url : String) (st : CrawlState) : CrawlState :=
  if url ∈ st.visited ∨ st.pagesVisited ≥ maxPages then st
  else
    let profile' :=
      match fetch url with
      | .error _ => st.profile
      | .ok (status, pg) =>
        if status ≠ 200 then st.profile else extractPage url pg st.profile
    { visited := url :: st.visited, pagesVisited := st.pagesVisited + 1,
      fetched := st.fetched ++ [url], profile := profile' }

/-- `scrape` lines 62-72: the base page, then each candidate path (resolved
by the external `urljoin`), stopping once the ceiling is reached and
skipping already-visited URLs. -/
def scrapeState (urljoin : String → String → String)
    (fetch : String → Except String (Nat × PageData)) (base : String) : CrawlState :=
  let st1 := scrape_page fetch base initState
  importantPages.foldl
    (fun st page =>
      if st.pagesVisited ≥ maxPages then st
      else
        let u := urljoin base page
        if u ∈ st.visited then st else scrape_page fetch u st)
    st1

/-- `scrape` (lines 53-86): crawl, infer the industry when still empty, then
post-process; the whole operation is total — the top-level handler returns
the accumulated profile instead of propagating any failure. -/
def scrape (urljoin : String → String → String)
    (fetch : String → Except String (Nat × PageData)) (base : String) : CompanyInfo :=
  let st := scrapeState urljoin fetch base
  let p := if st.profile.industry = "" then infer_industry st.profile else st.profile
  post_process_data base p

/-! ### Spec-side definitions

These follow the wording of the specification, to be compared with the
definitions translated from the source. -/

/-- The removal condition of the spec's products/services filtering rule:
the entry (case-insensitively) equals a navigation-vocabulary word, is
shorter than 4 characters, or contains `login`/`sign`/`contact`/`about` as a
substring (checked on the lower-cased entry). -/
def removalSpec (s : String) : Bool :=
  commonNavItems.contains (pyLower s) ||
  decide (s.length < 4) ||
  (["login", "sign", "contact", "about"].any (fun t => strHasSub t (pyLower s)))

/-- The largest score of a score list (0 when empty). -/
def maxSnd : List (String × Nat) → Nat
  | [] => 0
  | x :: xs => max x.2 (maxSnd xs)

/-- The spec's selection rule for industry inference: if the maximum score is
0 the industry is left as it was; otherwise the label of the first category
attaining the strictly highest score, in declaration order. -/
def industrySpecLabel (p : CompanyInfo) : String :=
  if maxSnd (industryScores p) = 0 then p.industry
  else
    match (industryScores p).find? (fun e => e.2 == maxSnd (industryScores p)) with
    | some e => e.1
    | none => p.industry

/-! ### Concrete instances used by counterexamples and witnesses -/

/-- A page carrying a meta description made of value-keyword phrases and one
long about paragraph free of value keywords. -/
def dupPage : PageData :=
  { blankPage with
    metaDesc := some "innovation, innovation , more",
    aboutContainers := [["The quick brown fox jumps over the lazy dog near rivers."]] }

/-- A fetch oracle serving `dupPage` at the base URL and failing elsewhere. -/
def dupFetch : String → Except String (Nat × PageData) :=
  fun u => if u = "https://example.com" then .ok (200, dupPage) else .error "network down"

/-- Path resolution used by the concrete scrapes: append the path segment. -/
def slashJoin (base page : String) : String := base ++ "/" ++ page

/-- A page whose only extractable content is three social-profile links. -/
def threeSocialPage : PageData :=
  { blankPage with
    socialLinkedin := some "https://linkedin.com/company/acme",
    socialTwitter := some "https://twitter.com/acme",
    socialFacebook := some "https://facebook.com/acme" }

/-- The same page with only two social-profile links. -/
def twoSocialPage : PageData :=
  { blankPage with
    socialLinkedin := some "https://linkedin.com/company/acme",
    socialTwitter := some "https://twitter.com/acme" }

/-- A page whose about-content candidate is exactly 20 characters long. -/
def twentyCharPage : PageData :=
  { blankPage with aboutContainers := [["abcdefghijklmnopqrst"]] }

/-- A profile whose write-once fields are already populated. -/
def populatedProfile : CompanyInfo :=
  { emptyCompanyInfo with
    name := "Acme",
    description := "A fine description.",
    about := "Our original story that is long enough here.",
    contact := "Email: a@b.c" }

/-- An about-styled page carrying a fresh long about paragraph. -/
def overwritePage : PageData :=
  { blankPage with
    aboutContainers :=
      [["A totally different passage on this page easily exceeding fifty characters overall."]] }

/-- A values-heading paragraph of more than 100 characters with no
comma/semicolon separator, indexed to keep the six entries distinct. -/
def longPara (i : Nat) : String := String.mk (List.replicate 120 'x') ++ toString i

/-- A page whose values extraction yields six paragraphs longer than 100
characters. -/
def sixLongValuesPage : PageData :=
  { blankPage with valueHeadingNexts := (List.range 6).map (fun i => .elemPara (longPara i)) }

/-- A page whose values extraction yields one value of exactly 100 characters. -/
def hundredCharValuePage : PageData :=
  { blankPage with valueHeadingNexts := [.elemPara (String.mk (List.replicate 100 'y'))] }

/-! ### General lemmas -/

/-- Strings with equal character data are equal. -/
theorem strExt (a b : String) (h : a.data = b.data) : a = b := by
  cases a
  cases b
  rw [show String.data ⟨_⟩ = _ from rfl] at h
  exact congrArg String.mk h

/-- Joining a two-element list with `" | "`. -/
theorem interTwo (a b : String) : String.intercalate " | " [a, b] = a ++ " | " ++ b := rfl

/-- Appending to a non-empty string stays non-empty. -/
theorem strAppendNeEmpty (a b : String) (ha : a ≠ "") : a ++ b ≠ "" := by
  intro he
  apply ha
  apply strExt
  have hd := congrArg String.data he
  simp only [String.data_append] at hd
  rcases List.append_eq_nil.mp hd with ⟨h1, _⟩
  simp [h1]

/-- A property preserved by each fold step holds after the whole fold. -/
theorem foldlPreserve {α β : Type} (P : β → Prop) (f : β → α → β)
    (hf : ∀ st a, P st → P (f st a)) :
    ∀ (l : List α) (st : β), P st → P (l.foldl f st) := by
  intro l
  induction l with
  | nil => exact fun st h => h
  | cons a l ih => exact fun st h => ih _ (hf st a h)

/-- Stripping never lengthens a string. -/
theorem pyStripLenLe (s : String) : (pyStrip s).length ≤ s.length := by
  show (((s.data.dropWhile wsChar).reverse.dropWhile wsChar).reverse).length ≤ s.data.length
  rw [List.length_reverse]
  calc ((s.data.dropWhile wsChar).reverse.dropWhile wsChar).length
      ≤ (s.data.dropWhile wsChar).reverse.length :=
        (List.dropWhile_suffix wsChar).sublist.length_le
    _ = (s.data.dropWhile wsChar).length := List.length_reverse _
    _ ≤ s.data.length := (List.dropWhile_suffix wsChar).sublist.length_le

/-- Filtered products/services come from the original list. -/
theorem filterServicesSubset (l : List String) (s : String)
    (h : s ∈ filterServices l) : s ∈ l := by
  rw [filterServices] at h
  split at h
  · exact h
  · dsimp only at h
    split at h
    · exact h
    · exact List.mem_of_mem_filter h

/-- Members produced by a guarded-append fold were in the accumulator or are
shorter than the cap. -/
theorem foldl_guardedAppend_mem (cap : Nat) (items : List String) :
    ∀ (acc : List String) (v : String),
      v ∈ items.foldl (guardedAppend cap) acc → v ∈ acc ∨ v.length < cap := by
  induction items with
  | nil => exact fun acc v h => Or.inl h
  | cons t ts ih =>
    intro acc v h
    rcases ih _ v h with h' | h'
    · rw [guardedAppend] at h'
      split at h'
      · rename_i hguard
        rcases List.mem_append.mp h' with h'' | h''
        · exact Or.inl h''
        · rw [List.mem_singleton] at h''
          subst h''
          exact Or.inr hguard.2.2
      · exact Or.inl h'
    · exact Or.inr h'

/-- The same bound for the nav-anchor fold of `_extract_products_services`. -/
theorem foldl_navAppend_mem (items : List String) :
    ∀ (acc : List String) (v : String),
      v ∈ items.foldl
          (fun acc t => if navServiceLink t then guardedAppend 50 acc t else acc) acc →
        v ∈ acc ∨ v.length < 50 := by
  induction items with
  | nil => exact fun acc v h => Or.inl h
  | cons t ts ih =>
    intro acc v h
    rcases ih _ v h with h' | h'
    · dsimp only at h'
      split at h'
      · rw [guardedAppend] at h'
        split at h'
        · rename_i hguard
          rcases List.mem_append.mp h' with h'' | h''
          · exact Or.inl h''
          · rw [List.mem_singleton] at h''
            subst h''
            exact Or.inr hguard.2.2
        · exact Or.inl h'
      · exact Or.inl h'
    · exact Or.inr h'

/-- Every backfilled values list respects the caps. -/
theorem backfillValuesBounds (ind : String) :
    (backfillValues ind).length ≤ 5 ∧ ∀ v ∈ backfillValues ind, v.length ≤ 100 := by
  rw [backfillValues]
  cases hf : industryValuesTable.find? (fun e => e.1 == ind) with
  | none => decide
  | some e =>
    have hmem := List.mem_of_find?_eq_some hf
    fin_cases hmem <;> decide

/-- For the industries the inference can produce, the backfilled
products/services entries are shorter than 100 characters. -/
theorem backfillProductsBounds (ind : String)
    (hind : ind ∈ industryKeywords.map Prod.fst) :
    ∀ s ∈ backfillProducts ind, s.length < 100 := by
  fin_cases hind <;> decide

/-- `_extract_about_info` touches no field but `about`. -/
theorem extract_about_info_fields (url : String) (pg : PageData) (p : CompanyInfo) :
    (extract_about_info url pg p).name = p.name ∧
    (extract_about_info url pg p).description = p.description ∧
    (extract_about_info url pg p).contact = p.contact ∧
    (extract_about_info url pg p).products_services = p.products_services ∧
    (extract_about_info url pg p).values = p.values := by
  rw [extract_about_info]
  split
  · dsimp only
    split
    · exact ⟨rfl, rfl, rfl, rfl, rfl⟩
    · exact ⟨rfl, rfl, rfl, rfl, rfl⟩
  · exact ⟨rfl, rfl, rfl, rfl, rfl⟩

/-- The bookkeeping invariant of the crawl: issued fetches are distinct,
counted exactly by `pagesVisited`, below the ceiling, and all recorded as
visited. -/
def crawlInv (st : CrawlState) : Prop :=
  st.fetched.Nodup ∧ st.pagesVisited = st.fetched.length ∧
  st.pagesVisited ≤ maxPages ∧ ∀ u ∈ st.fetched, u ∈ st.visited

/-- `_scrape_page` preserves the crawl invariant for every URL and oracle. -/
theorem scrape_page_inv (fetch : String → Except String (Nat × PageData))
    (url : String) (st : CrawlState) (h : crawlInv st) :
    crawlInv (scrape_page fetch url st) := by
  obtain ⟨hnd, heq, hle, hsub⟩ := h
  rw [scrape_page]
  split
  · exact ⟨hnd, heq, hle, hsub⟩
  · rename_i hcond
    push_neg at hcond
    obtain ⟨hnotvis, hlt⟩ := hcond
    have hnotfetched : url ∉ st.fetched := fun hmem => hnotvis (hsub url hmem)
    refine ⟨?_, ?_, ?_, ?_⟩
    · simp [List.nodup_append, hnd, hnotfetched]
    · simp [heq]
    · show st.pagesVisited + 1 ≤ maxPages
      omega
    · intro u hu
      rcases List.mem_append.mp hu with hu | hu
      · exact List.mem_cons_of_mem _ (hsub u hu)
      · simp only [List.mem_singleton] at hu
        subst hu
        exact List.mem_cons_self _ _

/-! ### Claim C5 — products/services filtering -/

/-- Claim C5: post-processing of the products/services list removes exactly
the entries that equal a navigation-vocabulary word case-insensitively, are
shorter than 4 characters, or contain `login`/`sign`/`contact`/`about` as
substrings of their lower-cased form; when filtering would remove every
entry the original list is kept, so a non-empty list is never emptied; and
`["Home", "Cloud Services", "Contact Us"]` filters to `["Cloud Services"]`. -/
theorem services_filter_spec :
    (∀ l : List String,
        filterServices l =
          (let f := l.filter (fun s => !removalSpec s)
           if f = [] then l else f)) ∧
    filterServices ["Home", "Cloud Services", "Contact Us"] = ["Cloud Services"] ∧
    (∀ l : List String, l ≠ [] → filterServices l ≠ []) := by
  refine ⟨?_, by decide, ?_⟩
  · intro l
    have hk : keepService = (fun s => !removalSpec s) := by
      funext s
      simp [keepService, removalSpec, Bool.not_or, Bool.and_assoc]
    rw [filterServices, hk]
    by_cases h : l = []
    · subst h; simp
    · simp only [if_neg h]
  · intro l hl
    rw [filterServices, if_neg hl]
    by_cases h : l.filter keepService = []
    · simp [h, hl]
    · simp [h]

/-- Witness for Claim C5 at the concrete list `["Home"]`. -/
theorem services_filter_spec_witness :
    (["Home"] : List String) ≠ [] ∧ filterServices ["Home"] ≠ [] :=
  ⟨by decide, services_filter_spec.2.2 ["Home"] (by decide)⟩

/-! ### Claim C10 — about acceptance threshold -/

/-- Claim C10 counterexample: the about extractor's acceptance test is
strict (`len > 20`, line 237): on a page whose candidate is exactly 20
characters long and non-empty, the about field is left empty, contradicting
acceptance at length ≥ 20. -/
theorem about_threshold_counterexample :
    (aboutCandidate twentyCharPage).length = 20 ∧
    aboutCandidate twentyCharPage ≠ "" ∧
    (extract_about_info "https://example.com" twentyCharPage emptyCompanyInfo).about = "" := by
  decide

/-- Claim C10 (amended): when the about field is still empty, a candidate is
written exactly when it is strictly longer than 20 characters (which also
forces it to be non-empty); a 20-character candidate is rejected. -/
theorem about_threshold_amended (url : String) (pg : PageData) (p : CompanyInfo)
    (h : p.about = "") :
    (extract_about_info url pg p).about =
      (if (aboutCandidate pg).length > 20 then aboutCandidate pg else "") := by
  rw [extract_about_info, if_pos (Or.inr h)]
  by_cases hlen : (aboutCandidate pg).length > 20
  · have hne : aboutCandidate pg ≠ "" := by
      intro he
      rw [he] at hlen
      exact absurd hlen (by decide)
    rw [if_pos ⟨hne, hlen⟩, if_pos hlen]
  · rw [if_neg (fun hc => hlen hc.2), if_neg hlen]
    exact h

/-- Witness for Claim C10 (amended) at the 20-character page. -/
theorem about_threshold_amended_witness :
    emptyCompanyInfo.about = "" ∧
    (extract_about_info "https://example.com" twentyCharPage emptyCompanyInfo).about =
      (if (aboutCandidate twentyCharPage).length > 20 then aboutCandidate twentyCharPage else "") :=
  ⟨rfl, about_threshold_amended "https://example.com" twentyCharPage emptyCompanyInfo rfl⟩

/-! ### Claim C9 — social links in contact extraction -/

/-- Claim C9, evaluated at the failing input: the guard at line 369
(`social_links and len(social_links) <= 2`) appends nothing when three or
four social links are detected, although the adjacent comment and the
`[:2]` slice intend a cap of two; with three links found, no social fragment
is appended and contact stays empty, while with two links both are appended. -/
theorem social_links_dropped_eval :
    (socialLinks threeSocialPage).length = 3 ∧
    (extract_contact_info threeSocialPage emptyCompanyInfo).contact = "" ∧
    (extract_contact_info twoSocialPage emptyCompanyInfo).contact =
      "LinkedIn: https://linkedin.com/company/acme | Twitter: https://twitter.com/acme" := by
  decide

/-! ### Claim C8 — duplicate-free sequence fields -/

set_option maxRecDepth 100000

/-- Claim C8, evaluated at the failing input: the description-phrase branch
of `_extract_values` (line 447) tests membership of the raw phrase but
appends the stripped phrase, so the completed profile for a page whose
description is `"innovation, innovation , more"` ends with
`values = ["innovation", "innovation"]` — an exact duplicate surviving the
whole pipeline including post-processing. -/
theorem values_duplicate_eval :
    (scrape slashJoin dupFetch "https://example.com").values = ["innovation", "innovation"] ∧
    ¬ (scrape slashJoin dupFetch "https://example.com").values.Nodup := by
  decide

/-! ### Claim C2 — industry inference -/

/-- Python's first-strict-maximum fold finds exactly the first list entry
whose score is the maximum score. -/
theorem argmaxAux_find (xs : List (String × Nat)) :
    ∀ x : String × Nat,
      (x :: xs).find? (fun e => e.2 == maxSnd (x :: xs)) = some (argmaxFirstAux x xs) := by
  induction xs with
  | nil =>
    intro x
    rw [argmaxFirstAux]
    apply List.find?_cons_of_pos
    simp [maxSnd]
  | cons y ys ih =>
    intro x
    by_cases hyx : y.2 > x.2
    · have hstep : argmaxFirstAux x (y :: ys) = argmaxFirstAux y ys := by
        rw [argmaxFirstAux, if_pos hyx]
      have hm : maxSnd (x :: y :: ys) = maxSnd (y :: ys) := by
        simp only [maxSnd]
        omega
      rw [hstep, hm]
      rw [List.find?_cons_of_neg]
      · exact ih y
      · have hy : y.2 ≤ maxSnd (y :: ys) := by
          simp only [maxSnd]
          omega
        simp only [beq_iff_eq]
        omega
    · push_neg at hyx
      have hstep : argmaxFirstAux x (y :: ys) = argmaxFirstAux x ys := by
        rw [argmaxFirstAux, if_neg (by omega)]
      have hm : maxSnd (x :: y :: ys) = maxSnd (x :: ys) := by
        simp only [maxSnd]
        omega
      rw [hstep, hm]
      have hih := ih x
      by_cases hxm : x.2 = maxSnd (x :: ys)
      · rw [List.find?_cons_of_pos _ (by simp [hxm])]
        rw [List.find?_cons_of_pos _ (by simp [hxm])] at hih
        exact hih
      · rw [List.find?_cons_of_neg _ (by simp [hxm])]
        rw [List.find?_cons_of_neg _ (by simp [hxm])] at hih
        rw [List.find?_cons_of_neg]
        · exact hih
        · have hx : x.2 ≤ maxSnd (x :: ys) := by
            simp only [maxSnd]
            omega
          simp only [beq_iff_eq]
          omega

/-- Claim C2: industry inference is a function of the profile corpus — the
scores are computed per category by `min(occurrences, 3)` per corpus keyword
plus 2 for a name/description keyword (`industryScores`, translated from
source), and the selected label is exactly the spec's rule: the first
category in declaration order attaining the strictly highest score, with the
industry left unchanged (empty in the pipeline) when the maximum score is 0. -/
theorem infer_industry_spec (p : CompanyInfo) :
    (infer_industry p).industry = industrySpecLabel p := by
  rw [infer_industry, industrySpecLabel]
  cases hl : industryScores p with
  | nil => simp [argmaxFirst, maxSnd]
  | cons x xs =>
    have hfind := argmaxAux_find xs x
    have hscore : (argmaxFirstAux x xs).2 = maxSnd (x :: xs) := by
      have h := List.find?_some hfind
      simpa using h
    simp only [argmaxFirst]
    by_cases h0 : maxSnd (x :: xs) = 0
    · rw [if_neg (by omega : ¬ (argmaxFirstAux x xs).2 > 0), if_pos h0]
    · rw [if_pos (by omega : (argmaxFirstAux x xs).2 > 0), if_neg h0, hfind]

/-! ### Claim C3 — crawl bounds -/

/-- Claim C3: for every path resolver, fetch oracle and base URL, a scrape
issues at most 5 page fetches in total and never issues two fetches for the
same URL (the issued-fetch log of the final crawl state is duplicate-free). -/
theorem crawl_fetch_bounds (urljoin : String → String → String)
    (fetch : String → Except String (Nat × PageData)) (base : String) :
    (scrapeState urljoin fetch base).fetched.length ≤ 5 ∧
    (scrapeState urljoin fetch base).fetched.Nodup := by
  have h0 : crawlInv initState := by
    refine ⟨List.nodup_nil, rfl, by decide, ?_⟩
    intro u hu
    exact absurd hu (List.not_mem_nil u)
  have h1 : crawlInv (scrape_page fetch base initState) := scrape_page_inv fetch base initState h0
  have h2 : crawlInv (scrapeState urljoin fetch base) := by
    rw [scrapeState]
    apply foldlPreserve crawlInv _ _ importantPages _ h1
    intro st page hst
    dsimp only
    split
    · exact hst
    · split
      · exact hst
      · exact scrape_page_inv fetch _ st hst
  obtain ⟨hnd, heq, hle, _⟩ := h2
  exact ⟨heq ▸ hle, hnd⟩

/-! ### Claim C4 — total, best-effort scrape -/

/-- `_scrape_page` leaves the profile untouched when every fetch fails. -/
theorem scrape_page_error_profile (e url : String) (st : CrawlState) :
    (scrape_page (fun _ => .error e) url st).profile = st.profile := by
  rw [scrape_page]
  split
  · rfl
  · rfl

/-- Claim C4: the top-level scrape is a total function of the fetch oracle —
for every oracle it returns the accumulated profile after industry inference
and post-processing (no failure is propagated), and when every fetch fails
it returns the post-processing of the empty profile, i.e. the empty profile
with only the contact backfill applied. -/
theorem scrape_total_best_effort :
    (∀ (urljoin : String → String → String)
       (fetch : String → Except String (Nat × PageData)) (base : String),
        scrape urljoin fetch base =
          post_process_data base
            (if (scrapeState urljoin fetch base).profile.industry = "" then
              infer_industry (scrapeState urljoin fetch base).profile
             else (scrapeState urljoin fetch base).profile)) ∧
    (∀ (urljoin : String → String → String) (base e : String),
        scrape urljoin (fun _ => .error e) base =
          { emptyCompanyInfo with contact := backfillContact base "" }) := by
  constructor
  · intro urljoin fetch base
    rfl
  · intro urljoin base e
    have hprof : (scrapeState urljoin (fun _ => .error e) base).profile = emptyCompanyInfo := by
      rw [scrapeState]
      apply foldlPreserve (fun (st : CrawlState) => st.profile = emptyCompanyInfo) _ _
        importantPages
      · rw [scrape_page_error_profile]
        rfl
      · intro st page hst
        dsimp only
        split
        · exact hst
        · split
          · exact hst
          · rw [scrape_page_error_profile]
            exact hst
    rw [scrape, hprof]
    have hinfer : infer_industry emptyCompanyInfo = emptyCompanyInfo := by decide
    have hif : (if emptyCompanyInfo.industry = "" then infer_industry emptyCompanyInfo
        else emptyCompanyInfo) = emptyCompanyInfo := by
      rw [if_pos (show emptyCompanyInfo.industry = "" from rfl), hinfer]
    rw [hif]
    rfl

/-! ### Claim C6 — contact backfill -/

/-- Claim C6: whenever contact is empty at the backfill step it is set to
`"LinkedIn: https://www.linkedin.com/company/<first label of the
www-stripped domain> | Website: <base URL>"`, and after the post-processor
runs the contact field is never empty. -/
theorem contact_backfill_nonempty :
    (∀ base c : String, c = "" →
        backfillContact base c =
          "LinkedIn: https://www.linkedin.com/company/" ++
            firstLabel (stripWww (netloc base)) ++ " | Website: " ++ base) ∧
    (∀ (base : String) (p : CompanyInfo), (post_process_data base p).contact ≠ "") := by
  have hsynth : ∀ base : String,
      backfillContact base "" =
        "LinkedIn: https://www.linkedin.com/company/" ++
          firstLabel (stripWww (netloc base)) ++ " | Website: " ++ base := by
    intro base
    show String.intercalate " | "
        ["LinkedIn: https://www.linkedin.com/company/" ++ firstLabel (stripWww (netloc base)),
         "Website: " ++ base] = _
    rw [interTwo]
    apply strExt
    simp only [String.data_append, List.append_assoc]
    rfl
  constructor
  · intro base c hc
    subst hc
    exact hsynth base
  · intro base p
    show backfillContact base (validatePhone p.contact) ≠ ""
    by_cases h : validatePhone p.contact = ""
    · rw [h, hsynth]
      apply strAppendNeEmpty
      apply strAppendNeEmpty
      apply strAppendNeEmpty
      decide
    · rw [backfillContact, if_neg h]
      exact h

/-- Witness for Claim C6 at the base URL `https://www.example.com`. -/
theorem contact_backfill_nonempty_witness :
    ("" : String) = "" ∧
    backfillContact "https://www.example.com" "" =
      "LinkedIn: https://www.linkedin.com/company/example | Website: https://www.example.com" := by
  refine ⟨rfl, ?_⟩
  rw [contact_backfill_nonempty.1 "https://www.example.com" "" rfl]
  decide

/-! ### Claim C1 — write-once fields -/

/-- Claim C1 counterexample: a page whose URL marks it as an about page
overwrites a previously non-empty `about` field (lines 197-238: the about
extractor re-runs on about/company pages regardless of the field's state),
so `about` is not write-once. -/
theorem write_once_counterexample :
    populatedProfile.about ≠ "" ∧
    (extractPage "https://example.com/about" overwritePage populatedProfile).about ≠
      populatedProfile.about := by
  decide

/-- Claim C1 (amended): on every processed page, the `name`, `description`
and `contact` fields are never altered once non-empty; `about`, once
non-empty, is preserved only on pages not detected as about/company pages —
on a detected about page a qualifying candidate may overwrite it. -/
theorem write_once_amended (url : String) (pg : PageData) (p : CompanyInfo) :
    (p.name ≠ "" → (extractPage url pg p).name = p.name) ∧
    (p.description ≠ "" → (extractPage url pg p).description = p.description) ∧
    (p.contact ≠ "" → (extractPage url pg p).contact = p.contact) ∧
    (p.about ≠ "" → isAboutPage url pg.title = false →
      (extractPage url pg p).about = p.about) := by
  refine ⟨?_, ?_, ?_, ?_⟩
  · intro h
    show (extract_about_info url pg (extract_description pg (extract_company_name pg p))).name
        = p.name
    rw [(extract_about_info_fields url pg _).1]
    show nameResult pg p = p.name
    rw [nameResult, if_pos h]
  · intro h
    show (extract_about_info url pg
        (extract_description pg (extract_company_name pg p))).description = p.description
    rw [(extract_about_info_fields url pg _).2.1]
    show descriptionResult pg (extract_company_name pg p) = p.description
    have hd : (extract_company_name pg p).description = p.description := rfl
    rw [descriptionResult, hd, if_pos h]
  · intro h
    show contactResult pg
        (extract_products_services pg
          (extract_about_info url pg
            (extract_description pg (extract_company_name pg p)))) = p.contact
    have hc : (extract_products_services pg
        (extract_about_info url pg
          (extract_description pg (extract_company_name pg p)))).contact = p.contact := by
      show (extract_about_info url pg
          (extract_description pg (extract_company_name pg p))).contact = p.contact
      rw [(extract_about_info_fields url pg _).2.2.1]
      rfl
    rw [contactResult, hc, if_pos h]
  · intro h hnp
    show (extract_about_info url pg
        (extract_description pg (extract_company_name pg p))).about = p.about
    rw [extract_about_info, if_neg]
    · rfl
    · rintro (hh | hh)
      · rw [hnp] at hh
        exact Bool.noConfusion hh
      · exact h hh

/-- Witness for Claim C1 (amended) at a populated profile and a page that is
not detected as an about page. -/
theorem write_once_amended_witness :
    populatedProfile.name ≠ "" ∧ populatedProfile.description ≠ "" ∧
    populatedProfile.contact ≠ "" ∧ populatedProfile.about ≠ "" ∧
    isAboutPage "https://example.com/page" blankPage.title = false ∧
    ((extractPage "https://example.com/page" blankPage populatedProfile).name =
        populatedProfile.name ∧
      (extractPage "https://example.com/page" blankPage populatedProfile).description =
        populatedProfile.description ∧
      (extractPage "https://example.com/page" blankPage populatedProfile).contact =
        populatedProfile.contact ∧
      (extractPage "https://example.com/page" blankPage populatedProfile).about =
        populatedProfile.about) := by
  have hthm := write_once_amended "https://example.com/page" blankPage populatedProfile
  exact ⟨by decide, by decide, by decide, by decide, by decide,
    hthm.1 (by decide), hthm.2.1 (by decide), hthm.2.2.1 (by decide),
    hthm.2.2.2 (by decide) (by decide)⟩

/-! ### Claim C7 — list caps after post-processing -/

/-- Claim C7 counterexample: values accumulated only as paragraphs longer
than 100 characters with no comma/semicolon sub-phrase survive refinement
unchanged (lines 450-464 keep the original list when the refined list is
empty), so after post-processing the values list can hold 6 entries, each
longer than 100 characters; and a value of exactly 100 characters survives
refinement, violating the strict `< 100` bound. -/
theorem values_caps_counterexample :
    (post_process_data "https://example.com"
        (extract_values sixLongValuesPage emptyCompanyInfo)).values.length = 6 ∧
    (post_process_data "https://example.com"
        (extract_values hundredCharValuePage emptyCompanyInfo)).values.map String.length =
      [100] := by
  decide

/-- Claim C7 (amended): whenever the refinement pass finds at least one
sub-phrase (in particular whenever some accumulated value is at most 100
characters long), the refined values list has at most 5 entries, each at
most 100 characters long; post-processing preserves these bounds (its date
filter only removes entries and its backfill lists respect the caps); and
products/services entries stay strictly below 100 characters through
extraction and post-processing, given that the industry is empty or one of
the fifteen inferable labels. -/
theorem values_caps_amended :
    (∀ vs : List String, refinedOf vs ≠ [] →
        (refineValues vs).length ≤ 5 ∧ ∀ v ∈ refineValues vs, v.length ≤ 100) ∧
    (∀ (base : String) (p : CompanyInfo),
        p.values.length ≤ 5 → (∀ v ∈ p.values, v.length ≤ 100) →
        (post_process_data base p).values.length ≤ 5 ∧
          ∀ v ∈ (post_process_data base p).values, v.length ≤ 100) ∧
    (∀ (base : String) (p : CompanyInfo),
        (p.industry = "" ∨ p.industry ∈ industryKeywords.map Prod.fst) →
        (∀ s ∈ p.products_services, s.length < 100) →
        ∀ s ∈ (post_process_data base p).products_services, s.length < 100) ∧
    (∀ (pg : PageData) (p : CompanyInfo),
        (∀ s ∈ p.products_services, s.length < 100) →
        ∀ s ∈ (extract_products_services pg p).products_services, s.length < 100) := by
  refine ⟨?_, ?_, ?_, ?_⟩
  · intro vs h
    rw [refineValues]
    by_cases hvs : vs = []
    · subst hvs
      exact absurd rfl h
    · rw [if_neg hvs]
      dsimp only
      rw [if_pos h]
      constructor
      · rw [List.length_take]
        exact min_le_left _ _
      · intro v hv
        have hv' : v ∈ refinedOf vs := List.mem_of_mem_take hv
        rw [refinedOf] at hv'
        rcases List.mem_flatMap.mp hv' with ⟨w, hw, hvw⟩
        rw [refineOne] at hvw
        split at hvw
        · rcases List.mem_map.mp hvw with ⟨part, hpart, rfl⟩
          have hcond := (List.mem_filter.mp hpart).2
          have hlen : part.length < 100 := by
            have := (Bool.and_eq_true _ _).mp hcond |>.1
            exact of_decide_eq_true this
          have := pyStripLenLe part
          omega
        · rename_i hwlen
          rw [List.mem_singleton] at hvw
          subst hvw
          omega
  · intro base p h5 h100
    have hval : (post_process_data base p).values =
        (if filterDates p.values = [] ∧ p.industry ≠ "" then backfillValues p.industry
         else filterDates p.values) := rfl
    rw [hval]
    by_cases hb : filterDates p.values = [] ∧ p.industry ≠ ""
    · rw [if_pos hb]
      exact backfillValuesBounds p.industry
    · rw [if_neg hb]
      constructor
      · calc (filterDates p.values).length ≤ p.values.length := List.length_filter_le _ _
          _ ≤ 5 := h5
      · intro v hv
        exact h100 v (List.mem_of_mem_filter hv)
  · intro base p hind h100 s hs
    have hs' : s ∈ (if filterServices p.products_services = [] ∧ p.industry ≠ "" then
        backfillProducts p.industry else filterServices p.products_services) := hs
    by_cases hb : filterServices p.products_services = [] ∧ p.industry ≠ ""
    · rw [if_pos hb] at hs'
      rcases hind with h | h
      · exact absurd h hb.2
      · exact backfillProductsBounds p.industry h s hs'
    · rw [if_neg hb] at hs'
      exact h100 s (filterServicesSubset _ _ hs')
  · intro pg p h100 s hs
    have hs' : s ∈ productsResult pg p := hs
    simp only [productsResult] at hs'
    set ps1 := pg.serviceHeadings.foldl (guardedAppend 100) p.products_services with hps1
    set ps2 := if ps1 = [] then pg.serviceListItems.foldl (guardedAppend 100) ps1 else ps1
      with hps2
    have h1 : ∀ v ∈ ps1, v.length < 100 := by
      intro v hv
      rcases foldl_guardedAppend_mem 100 pg.serviceHeadings _ v hv with h' | h'
      · exact h100 v h'
      · exact h'
    have h2 : ∀ v ∈ ps2, v.length < 100 := by
      intro v hv
      rw [hps2] at hv
      split at hv
      · rcases foldl_guardedAppend_mem 100 pg.serviceListItems _ v hv with h' | h'
        · exact h1 v h'
        · exact h'
      · exact h1 v hv
    split at hs'
    · rcases foldl_navAppend_mem pg.navItems _ s hs' with h' | h'
      · exact h2 s h'
      · omega
    · exact h2 s hs'

/-- Witness for Claim C7 (amended), with each hypothesis discharged at a
concrete input. -/
theorem values_caps_amended_witness :
    (refinedOf ["ok"] ≠ [] ∧
      (refineValues ["ok"]).length ≤ 5 ∧ ∀ v ∈ refineValues ["ok"], v.length ≤ 100) ∧
    ((post_process_data "https://x.com" emptyCompanyInfo).values.length ≤ 5 ∧
      ∀ v ∈ (post_process_data "https://x.com" emptyCompanyInfo).values, v.length ≤ 100) ∧
    (∀ s ∈ (post_process_data "https://x.com" emptyCompanyInfo).products_services,
      s.length < 100) ∧
    (∀ s ∈ (extract_products_services blankPage emptyCompanyInfo).products_services,
      s.length < 100) := by
  refine ⟨⟨by decide, values_caps_amended.1 ["ok"] (by decide)⟩, ?_, ?_, ?_⟩
  · exact values_caps_amended.2.1 "https://x.com" emptyCompanyInfo (by decide) (by decide)
  · exact values_caps_amended.2.2.1 "https://x.com" emptyCompanyInfo (Or.inl rfl) (by decide)
  · exact values_caps_amended.2.2.2 blankPage emptyCompanyInfo (by decide)

end ColdEmail
